import Mathlib

/-!
Shallow embedding of the django-ai-blocks air-quality alert service and the
workflow transition executor, for checking the specification's claims.

Sources embedded (from `src/examples/demo_project/air_quality/`):
* `models.py` — `SiteAlertRule.is_triggered`, `SiteAlertRuleQuerySet`,
  `SiteAlertQuerySet.active`, `SiteAlert.get_default_workflow`,
  `SiteAlert.get_active_state`, `SiteAlert.mark_active`, the
  `unique_alert_per_rule_measurement` constraint;
* `services.py` — `SiteAlertEvaluationService.evaluate_measurement` and
  `_upsert_alert`;
* `migrations/0003_sitealert_workflow.py` — the workflow get-or-create /
  rebind step of `seed_site_alert_workflow`;
* `management/commands/sync_air_quality.py` — the payload-validation
  boundary that skips measurements without a value.

The workflow engine itself (`django_ai_blocks.workflow`) is present in the
repository only through its URL surface and callers; its transition executor
and permission binder are modelled from the specification (see the
`WorkflowEngine` namespace below).

Conventions: database primary keys and content types are `Nat`; Python
`Decimal` values are `Rat` (exact decimal arithmetic embeds in ℚ);
timestamps are `Nat`; a nullable column is an `Option`; tables are `List`s
carried in an explicit `DB` record; the storage layer's unique constraint is
a checked save that returns `none` (the Django `IntegrityError`) when the
constraint would be violated.
-/

namespace AirQuality

/-- Content-type id assigned to the `SiteAlert` model
(`ContentType.objects.get_for_model(SiteAlert)`). -/
def ctSiteAlert : Nat := 1

/-- `models.py` `Measurement`: a measurement row. `value` is a non-nullable
`DecimalField`, `external_id` identifies the fact. -/
structure Measurement where
  id : Nat
  site : Nat
  pollutant : Nat
  measured_at : Nat
  value : Rat
  external_id : String
  deriving Repr, DecidableEq

/-- `models.py` `SiteAlertRule`: a threshold rule row. `comparison` is a
`CharField` whose intended values are `SiteAlertRule.ABOVE = "above"` and
`SiteAlertRule.BELOW = "below"`. -/
structure SiteAlertRule where
  id : Nat
  site : Nat
  pollutant : Nat
  name : String
  external_id : String
  threshold_value : Rat
  comparison : String
  is_active : Bool
  deriving Repr, DecidableEq

/-- `SiteAlertRule.ABOVE`. -/
def ABOVE : String := "above"

/-- `SiteAlertRule.BELOW`. -/
def BELOW : String := "below"

/-- `SiteAlertRule.is_triggered`: `None` never triggers; otherwise compare the
value against the threshold, `>=` for the `ABOVE` comparison and `<=` in the
other branch (the Python `Decimal(str(value))` conversion is the identity in
this embedding). -/
def is_triggered (r : SiteAlertRule) (value : Option Rat) : Bool :=
  match value with
  | none => false
  | some v =>
    if r.comparison = ABOVE then
      decide (r.threshold_value ≤ v)
    else
      decide (v ≤ r.threshold_value)

/-- `SiteAlertRule.matches_measurement`: same site and pollutant. -/
def matches_measurement (r : SiteAlertRule) (m : Measurement) : Bool :=
  m.site == r.site && m.pollutant == r.pollutant

/-- Workflow engine `Workflow` row as used by the demo app: a name and a
nullable content-type binding. -/
structure Workflow where
  id : Nat
  name : String
  content_type : Option Nat
  deriving Repr, DecidableEq

/-- Workflow engine `State` row: belongs to a workflow, has a name and
start/end flags. -/
structure WState where
  id : Nat
  workflow : Nat
  name : String
  is_start : Bool
  is_end : Bool
  deriving Repr, DecidableEq

/-- `models.py` `SiteAlert`: an alert row. `workflow` and `workflow_state`
come from `WorkflowModelMixin` and are nullable. -/
structure SiteAlert where
  id : Nat
  rule : Nat
  measurement : Nat
  triggered_at : Nat
  value : Rat
  note : String
  workflow : Option Nat
  workflow_state : Option Nat
  deriving Repr, DecidableEq

/-- `SiteAlert.STATE_ACTIVE`. -/
def STATE_ACTIVE : String := "Active"

/-- `SiteAlert.DEFAULT_WORKFLOW_NAME`. -/
def DEFAULT_WORKFLOW_NAME : String := "Air Quality Alert Lifecycle"

/-- The relational store: one list per table, plus fresh-id counters for the
rows this development creates. -/
structure DB where
  workflows : List Workflow
  states : List WState
  rules : List SiteAlertRule
  alerts : List SiteAlert
  nextWorkflowId : Nat
  nextAlertId : Nat
  deriving Repr, DecidableEq

/-- `SiteAlertQuerySet.active`'s row predicate: the join
`workflow_state__name = SiteAlert.STATE_ACTIVE`. -/
def isActiveAlert (db : DB) (a : SiteAlert) : Bool :=
  match a.workflow_state with
  | none => false
  | some sid =>
    match db.states.find? (fun s => s.id == sid) with
    | some s => s.name == STATE_ACTIVE
    | none => false

/-- `SiteAlert.get_default_workflow`: look up the workflow by
`DEFAULT_WORKFLOW_NAME`; create a stub bound to `SiteAlert`'s content type if
missing; if it exists with a `NULL` binding, fill the binding in.  Returns the
workflow together with the (possibly updated) store. -/
def get_default_workflow (db : DB) : Workflow × DB :=
  match db.workflows.find? (fun w => w.name == DEFAULT_WORKFLOW_NAME) with
  | some w =>
    match w.content_type with
    | none =>
      let w' : Workflow := { w with content_type := some ctSiteAlert }
      (w', { db with
              workflows := db.workflows.map (fun x => if x.id == w.id then w' else x) })
    | some _ => (w, db)
  | none =>
    let w : Workflow :=
      { id := db.nextWorkflowId, name := DEFAULT_WORKFLOW_NAME,
        content_type := some ctSiteAlert }
    (w, { db with workflows := db.workflows ++ [w],
                  nextWorkflowId := db.nextWorkflowId + 1 })

/-- `SiteAlert.get_active_state`:
`get_default_workflow().states.filter(name=STATE_ACTIVE).first()`. -/
def get_active_state (db : DB) : Option WState × DB :=
  let wdb := get_default_workflow db
  (wdb.2.states.find? (fun s => s.workflow == wdb.1.id && s.name == STATE_ACTIVE),
   wdb.2)

/-- `SiteAlert.mark_active`: attach the instance to the default workflow; only
when no workflow state is set, pick the state named `Active`, falling back to
the workflow's start state, and assign it when one was found. -/
def mark_active (a : SiteAlert) (db : DB) : SiteAlert × DB :=
  let wdb := get_default_workflow db
  match a.workflow_state with
  | some sid =>
    ({ a with workflow := some wdb.1.id, workflow_state := some sid }, wdb.2)
  | none =>
    let sdb := get_active_state wdb.2
    let st : Option WState :=
      match sdb.1 with
      | some s => some s
      | none => sdb.2.states.find? (fun s => s.workflow == wdb.1.id && s.is_start)
    match st with
    | some s =>
      ({ a with workflow := some wdb.1.id, workflow_state := some s.id }, sdb.2)
    | none => ({ a with workflow := some wdb.1.id, workflow_state := none }, sdb.2)

/-- Row predicate of the storage-level `unique_alert_per_rule_measurement`
constraint: no two distinct rows share the `(rule, measurement)` pair. -/
def alertsPairUnique : List SiteAlert → Bool
  | [] => true
  | a :: rest =>
    rest.all (fun b => !(b.rule == a.rule && b.measurement == a.measurement)) &&
      alertsPairUnique rest

/-- Primary keys are pairwise distinct (a relational-store axiom). -/
def alertsIdUnique : List SiteAlert → Bool
  | [] => true
  | a :: rest => rest.all (fun b => !(b.id == a.id)) && alertsIdUnique rest

/-- Well-formed alert table: fresh-id counter dominates every pk, pks are
distinct, and the `(rule, measurement)` unique constraint holds. -/
def DBwf (db : DB) : Bool :=
  db.alerts.all (fun a => a.id < db.nextAlertId) &&
    alertsIdUnique db.alerts && alertsPairUnique db.alerts

/-- `UPDATE` of an alert row restricted to
`update_fields=["measurement", "triggered_at", "value", "workflow",
"workflow_state"]`; the storage layer rejects the write (Django
`IntegrityError`) when the `(rule, measurement)` constraint would break. -/
def refreshSave (db : DB) (a : SiteAlert) : Option DB :=
  let upd := fun (b : SiteAlert) =>
    if b.id == a.id then
      { b with measurement := a.measurement, triggered_at := a.triggered_at,
               value := a.value, workflow := a.workflow,
               workflow_state := a.workflow_state }
    else b
  let alerts' := db.alerts.map upd
  if alertsPairUnique alerts' then some { db with alerts := alerts' } else none

/-- `INSERT` of a new alert row, rejected by the storage layer when the
`(rule, measurement)` pair already exists. -/
def insertAlert (db : DB) (a : SiteAlert) : Option DB :=
  if db.alerts.all (fun b => !(b.rule == a.rule && b.measurement == a.measurement))
  then some { db with alerts := db.alerts ++ [a], nextAlertId := db.nextAlertId + 1 }
  else none

/-- Full-row `UPDATE` (`alert.save()` with a primary key set), again checked
against the unique constraint. -/
def fullSave (db : DB) (a : SiteAlert) : Option DB :=
  let alerts' := db.alerts.map (fun b => if b.id == a.id then a else b)
  if alertsPairUnique alerts' then some { db with alerts := alerts' } else none

/-- `SiteAlert.Meta.ordering = ("-triggered_at", "-pk")`: row `a` sorts before
row `b`. -/
def alertBefore (a b : SiteAlert) : Bool :=
  b.triggered_at < a.triggered_at ||
    (a.triggered_at == b.triggered_at && b.id < a.id)

/-- `.first()` of an alert queryset under the model's default ordering. -/
def firstAlert : List SiteAlert → Option SiteAlert
  | [] => none
  | a :: rest => some (rest.foldl (fun best c => if alertBefore c best then c else best) a)

/-- The row lookup of `_upsert_alert`:
`SiteAlert.objects.active().filter(rule=rule).select_for_update(skip_locked=True).first()`.
`locked` is the set of row ids held by concurrent writers, which
`skip_locked=True` silently skips. -/
def firstLockableActive (db : DB) (ruleId : Nat) (locked : List Nat) : Option SiteAlert :=
  firstAlert (db.alerts.filter
    (fun a => isActiveAlert db a && a.rule == ruleId && !(locked.contains a.id)))

/-- `SiteAlert.objects.get_or_create(rule=..., measurement=..., defaults=...)`
as called by `_upsert_alert`: return the existing `(rule, measurement)` row,
or insert a fresh one built from the defaults. -/
def get_or_create_alert (rule : SiteAlertRule) (m : Measurement)
    (workflow : Workflow) (db : DB) : Option (SiteAlert × DB) :=
  match db.alerts.find? (fun a => a.rule == rule.id && a.measurement == m.id) with
  | some a => some (a, db)
  | none =>
    let a : SiteAlert :=
      { id := db.nextAlertId, rule := rule.id, measurement := m.id,
        triggered_at := m.measured_at, value := m.value, note := "",
        workflow := some workflow.id, workflow_state := none }
    match insertAlert db a with
    | some db2 => some (a, db2)
    | none => none

/-- `SiteAlertEvaluationService._upsert_alert`: under one transaction, fetch
the default workflow, try to lock the rule's active alert; if one was locked,
refresh its measurement, timestamp and value in place, re-affirm the workflow
attachment, and persist just those fields; otherwise `get_or_create` the row
keyed by `(rule, measurement)`, attach it, and save.  `none` is a storage
integrity failure propagating out of the transaction. -/
def upsert_alert (rule : SiteAlertRule) (m : Measurement) (locked : List Nat)
    (db : DB) : Option (SiteAlert × DB) :=
  let wdb := get_default_workflow db
  let workflow := wdb.1
  let db1 := wdb.2
  match firstLockableActive db1 rule.id locked with
  | some a0 =>
    let a1 : SiteAlert :=
      { a0 with measurement := m.id, triggered_at := m.measured_at, value := m.value }
    let adb := mark_active a1 db1
    match refreshSave adb.2 adb.1 with
    | some db' => some (adb.1, db')
    | none => none
  | none =>
    match get_or_create_alert rule m workflow db1 with
    | none => none
    | some adb0 =>
      let a2 : SiteAlert :=
        match adb0.1.workflow with
        | none => { adb0.1 with workflow := some workflow.id }
        | some _ => adb0.1
      let adb := mark_active a2 adb0.2
      match fullSave adb.2 adb.1 with
      | some db' => some (adb.1, db')
      | none => none

/-- The rule iteration of `evaluate_measurement`: for each rule, skip it when
`is_triggered` is false, otherwise upsert and collect the alert.  A storage
failure aborts the whole evaluation (the exception propagates). -/
def evalRules (m : Measurement) (locked : List Nat) :
    List SiteAlertRule → DB → Option (List SiteAlert × DB)
  | [], db => some ([], db)
  | r :: rs, db =>
    if is_triggered r (some m.value) then
      match upsert_alert r m locked db with
      | none => none
      | some adb =>
        match evalRules m locked rs adb.2 with
        | none => none
        | some rest => some (adb.1 :: rest.1, rest.2)
    else evalRules m locked rs db

/-- `SiteAlertRule.objects.active().for_measurement(measurement)`: the active
rules whose `(site, pollutant)` matches the measurement, in the stored
enumeration order. -/
def applicable_rules (db : DB) (m : Measurement) : List SiteAlertRule :=
  (db.rules.filter (fun r => r.is_active)).filter
    (fun r => r.site == m.site && r.pollutant == m.pollutant)

/-- `SiteAlertEvaluationService.evaluate_measurement`: evaluate one
measurement against the applicable rules, returning the alerts touched during
this call and the updated store. -/
def evaluate_measurement (m : Measurement) (locked : List Nat) (db : DB) :
    Option (List SiteAlert × DB) :=
  evalRules m locked (applicable_rules db m) db

/-- The workflow get-or-create / rebind step of `seed_site_alert_workflow`
(migration `0003_sitealert_workflow.py`, before state seeding): unlike
`get_default_workflow`, a binding that differs from `SiteAlert`'s content type
is overwritten, not reported. -/
def seed_workflow_binding (db : DB) : Workflow × DB :=
  match db.workflows.find? (fun w => w.name == DEFAULT_WORKFLOW_NAME) with
  | some w =>
    if w.content_type == some ctSiteAlert then (w, db)
    else
      let w' : Workflow := { w with content_type := some ctSiteAlert }
      (w', { db with
              workflows := db.workflows.map (fun x => if x.id == w.id then w' else x) })
  | none =>
    let w : Workflow :=
      { id := db.nextWorkflowId, name := DEFAULT_WORKFLOW_NAME,
        content_type := some ctSiteAlert }
    (w, { db with workflows := db.workflows ++ [w],
                  nextWorkflowId := db.nextWorkflowId + 1 })

/-- One raw measurement payload at the ingestion boundary
(`sync_air_quality.Command.sync_measurements`): every field arrives untrusted
and possibly missing. -/
structure MeasurementPayload where
  payloadId : Option String
  locationId : Option String
  parameter : Option String
  unit : Option String
  value : Option Rat
  measuredAt : Option Nat
  deriving Repr, DecidableEq

/-- The validation chain of `sync_measurements` for one payload: required keys
first, then the value, then the timestamp; `none` means the payload is
skipped (a logged `continue`, never an exception), `some` carries the fields
a measurement row would be written from. -/
def screen_payload (p : MeasurementPayload) :
    Option (String × String × String × Rat × Nat) :=
  match p.payloadId, p.locationId, p.parameter with
  | some pid, some loc, some par =>
    match p.value with
    | none => none
    | some v =>
      match p.measuredAt with
      | none => none
      | some t => some (pid, loc, par, v, t)
  | _, _, _ => none


end AirQuality

namespace WorkflowEngine

/-- Workflow engine `Transition` row: a named directed edge between two states
of one workflow (shape matches the seeding in migration
`0003_sitealert_workflow.py`). -/
structure Transition where
  id : Nat
  workflow : Nat
  source_state : Nat
  dest_state : Nat
  name : String
  deriving Repr, DecidableEq

/-- A workflow-attached entity's two engine-owned columns
(`WorkflowModelMixin`): nullable workflow and current state. -/
structure WfEntity where
  workflow : Option Nat
  workflow_state : Option Nat
  deriving Repr, DecidableEq

/-- Modelled from the spec: the Transition Executor's error taxonomy
(§7) — the executor code under `django_ai_blocks/workflow` is not in the
visible sources. -/
inductive TransitionError where
  | entityNotAttached
  | transitionNotAllowed
  | permissionDenied
  deriving Repr, DecidableEq

/-- Modelled from the spec: the Permission Binder's capability token, "a
deterministic function of (entityType, transitionName) — e.g.
`apply:<transitionName>:<entityType>`" (§4.2). -/
def grantToken (entityType : String) (transitionName : String) : String :=
  "apply:" ++ transitionName ++ ":" ++ entityType

/-- Modelled from the spec: `performTransition(entity, actor, transitionName)`
(§4.3) — the executor view and mixin are not in the visible sources.  Resolve
the entity's workflow and current state (`EntityNotAttached` when unset); look
up the transition matching (workflow, current state, name)
(`TransitionNotAllowed` when none matches the current state); check the
actor's grant (`PermissionDenied` when absent); otherwise move the entity to
the transition's destination state. -/
def performTransition (transitions : List Transition) (entityType : String)
    (hasGrant : String → Bool) (e : WfEntity) (tname : String) :
    Except TransitionError WfEntity :=
  match e.workflow, e.workflow_state with
  | some w, some s =>
    match transitions.find?
        (fun t => t.workflow == w && t.source_state == s && t.name == tname) with
    | none => .error .transitionNotAllowed
    | some t =>
      if hasGrant (grantToken entityType t.name) then
        .ok { e with workflow_state := some t.dest_state }
      else .error .permissionDenied
  | _, _ => .error .entityNotAttached

/-- Modelled from the spec: the stored outcome of a `performTransition`
request — on any executor error the transaction leaves the entity row as it
was (§4.3 step 4, §8). -/
def performTransitionRun (transitions : List Transition) (entityType : String)
    (hasGrant : String → Bool) (e : WfEntity) (tname : String) : WfEntity :=
  match performTransition transitions entityType hasGrant e tname with
  | .ok e' => e'
  | .error _ => e

/-- Transition names are unique within (workflow, source state) (§3): no two
distinct rows share that triple. -/
def transitionsKeyUnique : List Transition → Bool
  | [] => true
  | t :: rest =>
    rest.all (fun u =>
      !(u.workflow == t.workflow && u.source_state == t.source_state &&
        u.name == t.name)) &&
      transitionsKeyUnique rest

end WorkflowEngine

namespace AirQuality

/-- The seeded demo workflow (migration `0003`): "Air Quality Alert
Lifecycle" bound to the `SiteAlert` content type. -/
def demoWorkflow : Workflow :=
  { id := 1, name := DEFAULT_WORKFLOW_NAME, content_type := some ctSiteAlert }

/-- Seeded "Active" state, the start state of the demo workflow. -/
def demoStateActive : WState :=
  { id := 1, workflow := 1, name := "Active", is_start := true, is_end := false }

/-- Seeded "Acknowledged" state, an end state. -/
def demoStateAck : WState :=
  { id := 2, workflow := 1, name := "Acknowledged", is_start := false, is_end := true }

/-- The rule of the test scenario in `tests/test_alerts.py`: threshold 30,
above-or-equal. -/
def demoRule : SiteAlertRule :=
  { id := 1, site := 1, pollutant := 1, name := "High PM",
    external_id := "rule-high", threshold_value := 30, comparison := "above",
    is_active := true }

/-- The scenario's measurement: value 42 breaches the threshold of 30. -/
def demoMeasurement : Measurement :=
  { id := 1, site := 1, pollutant := 1, measured_at := 100, value := 42,
    external_id := "measurement-1" }

/-- The same fact-identity re-saved with value 55. -/
def demoMeasurementUpdated : Measurement := { demoMeasurement with value := 55 }

/-- Seeded store before any evaluation: workflow graph and rule present, no
alerts. -/
def demoDb : DB :=
  { workflows := [demoWorkflow], states := [demoStateActive, demoStateAck],
    rules := [demoRule], alerts := [], nextWorkflowId := 2, nextAlertId := 1 }

/-- The alert the first evaluation creates. -/
def demoAlert : SiteAlert :=
  { id := 1, rule := 1, measurement := 1, triggered_at := 100, value := 42,
    note := "", workflow := some 1, workflow_state := some 1 }

/-- Store after the first evaluation. -/
def demoDbAfter : DB := { demoDb with alerts := [demoAlert], nextAlertId := 2 }

/-- The same alert row refreshed in place with value 55. -/
def demoAlertRefreshed : SiteAlert := { demoAlert with value := 55 }

/-- Store after re-evaluating the updated measurement. -/
def demoDbRefreshed : DB := { demoDbAfter with alerts := [demoAlertRefreshed] }

/-- A store whose default-named workflow is bound to a different content type
(99) than `SiteAlert`'s. -/
def mismatchDb : DB :=
  { workflows := [{ id := 7, name := DEFAULT_WORKFLOW_NAME, content_type := some 99 }],
    states := [], rules := [], alerts := [], nextWorkflowId := 8, nextAlertId := 1 }

/-- The mismatched workflow row of `mismatchDb`. -/
def mismatchWorkflow : Workflow :=
  { id := 7, name := DEFAULT_WORKFLOW_NAME, content_type := some 99 }

/-- An ingestion payload whose numeric value is missing. -/
def payloadNoValue : MeasurementPayload :=
  { payloadId := some "m-1", locationId := some "site-1",
    parameter := some "pm25", unit := some "ppm", value := none,
    measuredAt := some 100 }

end AirQuality

namespace WorkflowEngine

/-- Seeded "acknowledge" transition: Active (1) → Acknowledged (2). -/
def demoAcknowledge : Transition :=
  { id := 1, workflow := 1, source_state := 1, dest_state := 2, name := "acknowledge" }

/-- Seeded "mute" transition: Active (1) → Muted (3). -/
def demoMute : Transition :=
  { id := 2, workflow := 1, source_state := 1, dest_state := 3, name := "mute" }

/-- An alert-like entity sitting in the Active state. -/
def demoEntityActive : WfEntity := { workflow := some 1, workflow_state := some 1 }

/-- The same entity after acknowledging. -/
def demoEntityAcked : WfEntity := { workflow := some 1, workflow_state := some 2 }

/-- An actor holding exactly the acknowledge grant. -/
def demoGrantAck : String → Bool := fun g => g == grantToken "sitealert" "acknowledge"

/-- An actor holding no grants. -/
def demoGrantNone : String → Bool := fun _ => false

end WorkflowEngine

namespace AirQuality

theorem gdw_found (db : DB) (w : Workflow)
    (h : db.workflows.find? (fun x => x.name == DEFAULT_WORKFLOW_NAME) = some w)
    (hct : w.content_type ≠ none) :
    get_default_workflow db = (w, db) := by
  unfold get_default_workflow
  cases hc : w.content_type with
  | none => exact absurd hc hct
  | some c => simp only [h, hc]

theorem gdw_frame (db : DB) :
    (get_default_workflow db).2.states = db.states ∧
    (get_default_workflow db).2.alerts = db.alerts ∧
    (get_default_workflow db).2.nextAlertId = db.nextAlertId := by
  unfold get_default_workflow
  split
  · split
    · exact ⟨rfl, rfl, rfl⟩
    · exact ⟨rfl, rfl, rfl⟩
  · exact ⟨rfl, rfl, rfl⟩

theorem gas_frame (db : DB) :
    (get_active_state db).2.states = db.states ∧
    (get_active_state db).2.alerts = db.alerts ∧
    (get_active_state db).2.nextAlertId = db.nextAlertId := by
  unfold get_active_state
  exact gdw_frame db

theorem mark_active_frame (a : SiteAlert) (db : DB) :
    (mark_active a db).2.states = db.states ∧
    (mark_active a db).2.alerts = db.alerts ∧
    (mark_active a db).2.nextAlertId = db.nextAlertId := by
  have h1 := gdw_frame db
  have h2 := gas_frame (get_default_workflow db).2
  have hcomp : (get_active_state (get_default_workflow db).2).2.states = db.states ∧
      (get_active_state (get_default_workflow db).2).2.alerts = db.alerts ∧
      (get_active_state (get_default_workflow db).2).2.nextAlertId = db.nextAlertId :=
    ⟨h2.1.trans h1.1, h2.2.1.trans h1.2.1, h2.2.2.trans h1.2.2⟩
  unfold mark_active
  cases hs : a.workflow_state with
  | some sid => dsimp only; exact h1
  | none =>
    dsimp only
    split
    · dsimp only; exact hcomp
    · dsimp only; exact hcomp

theorem mark_active_fields (a : SiteAlert) (db : DB) :
    (mark_active a db).1.id = a.id ∧
    (mark_active a db).1.rule = a.rule ∧
    (mark_active a db).1.measurement = a.measurement ∧
    (mark_active a db).1.triggered_at = a.triggered_at ∧
    (mark_active a db).1.value = a.value ∧
    (mark_active a db).1.note = a.note := by
  unfold mark_active
  cases hs : a.workflow_state with
  | some sid => exact ⟨rfl, rfl, rfl, rfl, rfl, rfl⟩
  | none =>
    dsimp only
    split
    · exact ⟨rfl, rfl, rfl, rfl, rfl, rfl⟩
    · exact ⟨rfl, rfl, rfl, rfl, rfl, rfl⟩

theorem mark_active_of_state_set (a : SiteAlert) (db : DB) (sid : Nat)
    (h : a.workflow_state = some sid) :
    mark_active a db =
      ({ a with workflow := some (get_default_workflow db).1.id },
       (get_default_workflow db).2) := by
  unfold mark_active
  simp only [h]

theorem isActiveAlert_congr (db db' : DB) (a : SiteAlert)
    (h : db.states = db'.states) :
    isActiveAlert db a = isActiveAlert db' a := by
  unfold isActiveAlert
  rw [h]

theorem isActiveAlert_state_set (db : DB) (a : SiteAlert)
    (h : isActiveAlert db a = true) : ∃ sid, a.workflow_state = some sid := by
  unfold isActiveAlert at h
  cases hs : a.workflow_state with
  | none => rw [hs] at h; exact absurd h (by simp)
  | some sid => exact ⟨sid, rfl⟩

theorem foldl_choose_mem (l : List SiteAlert) (init : SiteAlert) :
    l.foldl (fun best c => if alertBefore c best then c else best) init ∈ init :: l := by
  induction l generalizing init with
  | nil => simp
  | cons c rest ih =>
    simp only [List.foldl_cons]
    have hmem := ih (if alertBefore c init then c else init)
    rcases List.mem_cons.mp hmem with h | h
    · rw [h]
      by_cases hb : alertBefore c init = true
      · simp [hb]
      · simp [hb]
    · exact List.mem_cons_of_mem _ (List.mem_cons_of_mem _ h)

theorem firstAlert_mem (l : List SiteAlert) (x : SiteAlert)
    (h : firstAlert l = some x) : x ∈ l := by
  cases l with
  | nil => simp [firstAlert] at h
  | cons a rest =>
    have hx : x = rest.foldl (fun best c => if alertBefore c best then c else best) a := by
      simpa [firstAlert] using h.symm
    rw [hx]
    exact foldl_choose_mem rest a

theorem firstLockableActive_mem (db : DB) (ruleId : Nat) (locked : List Nat)
    (a : SiteAlert) (h : firstLockableActive db ruleId locked = some a) :
    isActiveAlert db a = true ∧ a.rule = ruleId ∧ locked.contains a.id = false := by
  have hm := firstAlert_mem _ _ h
  have hp := List.of_mem_filter hm
  simp only [Bool.and_eq_true, Bool.not_eq_true', beq_iff_eq] at hp
  exact ⟨hp.1.1, hp.1.2, hp.2⟩

theorem firstLockableActive_congr (db db' : DB) (ruleId : Nat) (locked : List Nat)
    (hA : db.alerts = db'.alerts) (hS : db.states = db'.states) :
    firstLockableActive db ruleId locked = firstLockableActive db' ruleId locked := by
  unfold firstLockableActive
  rw [hA]
  congr 1
  apply List.filter_congr
  intro a _
  rw [isActiveAlert_congr db db' a hS]

theorem alertsPairUnique_iff (l : List SiteAlert) :
    alertsPairUnique l = true ↔
      l.Pairwise (fun a b => ¬(b.rule = a.rule ∧ b.measurement = a.measurement)) := by
  induction l with
  | nil => simp [alertsPairUnique]
  | cons a rest ih =>
    rw [List.pairwise_cons]
    simp only [alertsPairUnique, Bool.and_eq_true, List.all_eq_true, ih]
    constructor
    · rintro ⟨h1, h2⟩
      refine ⟨fun b hb => ?_, h2⟩
      have hball := h1 b hb
      simp only [Bool.not_eq_true', Bool.and_eq_false_iff, beq_eq_false_iff_ne, ne_eq] at hball
      intro hc
      rcases hball with h | h
      · exact h hc.1
      · exact h hc.2
    · rintro ⟨h1, h2⟩
      refine ⟨fun b hb => ?_, h2⟩
      have hbr := h1 b hb
      simp only [Bool.not_eq_true', Bool.and_eq_false_iff, beq_eq_false_iff_ne, ne_eq]
      by_cases hr : b.rule = a.rule
      · exact Or.inr (fun hm => hbr ⟨hr, hm⟩)
      · exact Or.inl hr

theorem alertsIdUnique_iff (l : List SiteAlert) :
    alertsIdUnique l = true ↔ l.Pairwise (fun a b => b.id ≠ a.id) := by
  induction l with
  | nil => simp [alertsIdUnique]
  | cons a rest ih =>
    simp [alertsIdUnique, ih, List.all_eq_true, List.pairwise_cons]

theorem alertsIdUnique_mem_eq (l : List SiteAlert) (a b : SiteAlert)
    (hu : alertsIdUnique l = true) (ha : a ∈ l) (hb : b ∈ l) (hid : a.id = b.id) :
    a = b := by
  by_contra hne
  have hp := (alertsIdUnique_iff l).mp hu
  have := List.Pairwise.forall (fun x y h => h ∘ Eq.symm) hp ha hb hne
  exact this hid.symm

theorem alertsPairUnique_map_preserving (f : SiteAlert → SiteAlert)
    (l : List SiteAlert)
    (h : ∀ b ∈ l, (f b).rule = b.rule ∧ (f b).measurement = b.measurement)
    (hl : alertsPairUnique l = true) : alertsPairUnique (l.map f) = true := by
  induction l with
  | nil => simp [alertsPairUnique]
  | cons a rest ih =>
    simp only [alertsPairUnique, List.all_eq_true, Bool.and_eq_true] at hl
    have hfa := h a (List.mem_cons_self _ _)
    simp only [List.map_cons, alertsPairUnique, List.all_eq_true, Bool.and_eq_true]
    refine ⟨?_, ih (fun b hb => h b (List.mem_cons_of_mem _ hb)) hl.2⟩
    intro fb hfb
    rcases List.mem_map.mp hfb with ⟨b, hb, rfl⟩
    have hfb' := h b (List.mem_cons_of_mem _ hb)
    have := hl.1 b hb
    rw [hfb'.1, hfb'.2, hfa.1, hfa.2]
    exact this

theorem alertsIdUnique_map_preserving (f : SiteAlert → SiteAlert)
    (l : List SiteAlert) (h : ∀ b ∈ l, (f b).id = b.id)
    (hl : alertsIdUnique l = true) : alertsIdUnique (l.map f) = true := by
  induction l with
  | nil => simp [alertsIdUnique]
  | cons a rest ih =>
    simp only [alertsIdUnique, List.all_eq_true, Bool.and_eq_true] at hl
    have hfa := h a (List.mem_cons_self _ _)
    simp only [List.map_cons, alertsIdUnique, List.all_eq_true, Bool.and_eq_true]
    refine ⟨?_, ih (fun b hb => h b (List.mem_cons_of_mem _ hb)) hl.2⟩
    intro fb hfb
    rcases List.mem_map.mp hfb with ⟨b, hb, rfl⟩
    rw [h b (List.mem_cons_of_mem _ hb), hfa]
    exact hl.1 b hb

theorem alertsPairUnique_append_one (l : List SiteAlert) (a : SiteAlert)
    (h : l.all (fun b => !(b.rule == a.rule && b.measurement == a.measurement)) = true)
    (hl : alertsPairUnique l = true) : alertsPairUnique (l ++ [a]) = true := by
  induction l with
  | nil => simp [alertsPairUnique]
  | cons c rest ih =>
    simp only [List.all_cons, Bool.and_eq_true] at h
    simp only [alertsPairUnique, List.all_eq_true, Bool.and_eq_true] at hl
    simp only [List.cons_append, alertsPairUnique, List.all_eq_true, Bool.and_eq_true]
    refine ⟨?_, ih h.2 hl.2⟩
    intro b hb
    rcases List.mem_append.mp hb with hb' | hb'
    · exact hl.1 b hb'
    · have : b = a := List.mem_singleton.mp hb'
      subst this
      simp only [Bool.not_eq_true', Bool.and_eq_false_iff, beq_eq_false_iff_ne, ne_eq]
      simp only [Bool.not_eq_true', Bool.and_eq_false_iff, beq_eq_false_iff_ne, ne_eq] at h
      rcases h.1 with h1 | h1
      · exact Or.inl (fun he => h1 he.symm)
      · exact Or.inr (fun he => h1 he.symm)

theorem alertsIdUnique_append_one (l : List SiteAlert) (a : SiteAlert)
    (h : ∀ b ∈ l, b.id ≠ a.id) (hl : alertsIdUnique l = true) :
    alertsIdUnique (l ++ [a]) = true := by
  induction l with
  | nil => simp [alertsIdUnique]
  | cons c rest ih =>
    simp only [alertsIdUnique, List.all_eq_true, Bool.and_eq_true] at hl
    simp only [List.cons_append, alertsIdUnique, List.all_eq_true, Bool.and_eq_true]
    refine ⟨?_, ih (fun b hb => h b (List.mem_cons_of_mem _ hb)) hl.2⟩
    intro b hb
    rcases List.mem_append.mp hb with hb' | hb'
    · exact hl.1 b hb'
    · have : b = a := List.mem_singleton.mp hb'
      subst this
      simp only [Bool.not_eq_true', beq_eq_false_iff_ne, ne_eq]
      exact fun he => h c (List.mem_cons_self _ _) he.symm

theorem DBwf_congr (db db' : DB) (hA : db.alerts = db'.alerts)
    (hN : db.nextAlertId = db'.nextAlertId) : DBwf db = DBwf db' := by
  unfold DBwf
  rw [hA, hN]

theorem refreshSave_some (db : DB) (a : SiteAlert) (db' : DB)
    (h : refreshSave db a = some db') :
    db' = { db with alerts := db.alerts.map (fun b =>
        if b.id == a.id then
          { b with measurement := a.measurement, triggered_at := a.triggered_at,
                   value := a.value, workflow := a.workflow,
                   workflow_state := a.workflow_state }
        else b) } ∧
    alertsPairUnique db'.alerts = true := by
  unfold refreshSave at h
  dsimp only at h
  split at h
  · rename_i hgate
    have hd := Option.some.inj h
    refine ⟨hd.symm, ?_⟩
    rw [← hd]
    exact hgate
  · exact absurd h (by simp)

theorem refreshSave_wf (db : DB) (a : SiteAlert) (db' : DB)
    (h : refreshSave db a = some db') (hwf : DBwf db = true) : DBwf db' = true := by
  obtain ⟨hdb, hpu⟩ := refreshSave_some db a db' h
  unfold DBwf at hwf ⊢
  simp only [Bool.and_eq_true] at hwf ⊢
  refine ⟨⟨?_, ?_⟩, ?_⟩
  · rw [hdb]
    simp only [List.all_eq_true, List.mem_map]
    rintro x ⟨b, hb, rfl⟩
    have := (List.all_eq_true.mp hwf.1.1) b hb
    split <;> simpa using this
  · rw [hdb]
    apply alertsIdUnique_map_preserving
    · intro b _
      split
      · rfl
      · rfl
    · exact hwf.1.2
  · rw [hdb] at hpu
    rw [hdb]
    exact hpu

theorem insertAlert_some (db : DB) (a : SiteAlert) (db' : DB)
    (h : insertAlert db a = some db') :
    db' = { db with alerts := db.alerts ++ [a], nextAlertId := db.nextAlertId + 1 } ∧
    db.alerts.all
      (fun b => !(b.rule == a.rule && b.measurement == a.measurement)) = true := by
  unfold insertAlert at h
  split at h
  · rename_i hgate
    exact ⟨(Option.some.inj h).symm, hgate⟩
  · exact absurd h (by simp)

theorem insertAlert_wf (db : DB) (a : SiteAlert) (db' : DB)
    (h : insertAlert db a = some db') (hwf : DBwf db = true)
    (hid : a.id = db.nextAlertId) : DBwf db' = true := by
  obtain ⟨hdb, hgate⟩ := insertAlert_some db a db' h
  unfold DBwf at hwf ⊢
  simp only [Bool.and_eq_true] at hwf ⊢
  have hbound := List.all_eq_true.mp hwf.1.1
  refine ⟨⟨?_, ?_⟩, ?_⟩
  · rw [hdb]
    simp only [List.all_eq_true]
    intro b hb
    rcases List.mem_append.mp hb with hb' | hb'
    · have := hbound b hb'
      simp only [decide_eq_true_eq] at this ⊢
      omega
    · have : b = a := List.mem_singleton.mp hb'
      subst this
      simp only [decide_eq_true_eq]
      omega
  · rw [hdb]
    apply alertsIdUnique_append_one
    · intro b hb
      have := hbound b hb
      simp only [decide_eq_true_eq] at this
      omega
    · exact hwf.1.2
  · rw [hdb]
    exact alertsPairUnique_append_one db.alerts a hgate hwf.2

theorem fullSave_some (db : DB) (a : SiteAlert) (db' : DB)
    (h : fullSave db a = some db') :
    db' = { db with alerts := db.alerts.map (fun b => if b.id == a.id then a else b) } ∧
    alertsPairUnique db'.alerts = true := by
  unfold fullSave at h
  dsimp only at h
  split at h
  · rename_i hgate
    have hd := Option.some.inj h
    refine ⟨hd.symm, ?_⟩
    rw [← hd]
    exact hgate
  · exact absurd h (by simp)

theorem fullSave_wf (db : DB) (a : SiteAlert) (db' : DB)
    (h : fullSave db a = some db') (hwf : DBwf db = true) : DBwf db' = true := by
  obtain ⟨hdb, hpu⟩ := fullSave_some db a db' h
  unfold DBwf at hwf ⊢
  simp only [Bool.and_eq_true] at hwf ⊢
  have hidpt : ∀ b : SiteAlert, (if b.id == a.id then a else b).id = b.id := by
    intro b
    split
    · rename_i hid
      exact (beq_iff_eq.mp hid).symm
    · rfl
  refine ⟨⟨?_, ?_⟩, ?_⟩
  · rw [hdb]
    simp only [List.all_eq_true, List.mem_map]
    rintro x ⟨b, hb, rfl⟩
    have := (List.all_eq_true.mp hwf.1.1) b hb
    rw [hidpt b]
    exact this
  · rw [hdb]
    exact alertsIdUnique_map_preserving _ _ (fun b _ => hidpt b) hwf.1.2
  · rw [hdb] at hpu
    rw [hdb]
    exact hpu

theorem upsert_refresh_shape (r : SiteAlertRule) (m : Measurement)
    (locked : List Nat) (db : DB) (w : Workflow) (a : SiteAlert)
    (hw : db.workflows.find? (fun x => x.name == DEFAULT_WORKFLOW_NAME) = some w)
    (hct : w.content_type ≠ none)
    (hlock : firstLockableActive db r.id locked = some a) :
    upsert_alert r m locked db =
      (refreshSave db
          { a with measurement := m.id, triggered_at := m.measured_at,
                   value := m.value, workflow := some w.id }).map
        (fun db' =>
          ({ a with measurement := m.id, triggered_at := m.measured_at,
                    value := m.value, workflow := some w.id }, db')) := by
  obtain ⟨sid, hsid⟩ :=
    isActiveAlert_state_set db a (firstLockableActive_mem db r.id locked a hlock).1
  unfold upsert_alert
  rw [gdw_found db w hw hct]
  dsimp only
  rw [hlock]
  dsimp only
  have hms := mark_active_of_state_set
    { a with measurement := m.id, triggered_at := m.measured_at, value := m.value }
    db sid hsid
  rw [hms]
  rw [gdw_found db w hw hct]
  dsimp only
  cases hres : refreshSave db
      { a with measurement := m.id, triggered_at := m.measured_at,
               value := m.value, workflow := some w.id } with
  | none => rfl
  | some db2 => rfl

/-- C2: a rule with comparison `above` (above-or-equal) triggers exactly when
the value is at least the threshold; with comparison `below` (below-or-equal)
exactly when the value is at most the threshold; in both modes a value equal
to the threshold triggers. -/
theorem is_triggered_threshold_semantics (r : SiteAlertRule) (v : Rat) :
    (r.comparison = ABOVE →
      (is_triggered r (some v) = true ↔ r.threshold_value ≤ v)) ∧
    (r.comparison = BELOW →
      (is_triggered r (some v) = true ↔ v ≤ r.threshold_value)) ∧
    is_triggered r (some r.threshold_value) = true := by
  refine ⟨?_, ?_, ?_⟩
  · intro h
    simp [is_triggered, h]
  · intro h
    have hne : r.comparison ≠ ABOVE := by
      rw [h]
      intro hc
      exact absurd hc (by decide)
    simp [is_triggered, hne]
  · by_cases h : r.comparison = ABOVE
    · simp [is_triggered, h]
    · simp [is_triggered, h]

theorem is_triggered_threshold_semantics_witness :
    is_triggered demoRule (some 42) = true ∧
    is_triggered demoRule (some 30) = true := by
  constructor
  · exact ((is_triggered_threshold_semantics demoRule 42).1 rfl).mpr (by decide)
  · exact (is_triggered_threshold_semantics demoRule 30).2.2

/-- C7: an incoming fact with a missing numeric value is skipped at the
ingestion boundary (a silent `continue`, not an exception — the screening
function is total and returns the skip marker), and `is_triggered` on a
missing value is `false` for every rule, so such a fact never yields an
alert. -/
theorem missing_value_skipped_never_triggers (p : MeasurementPayload)
    (r : SiteAlertRule) (h : p.value = none) :
    screen_payload p = none ∧ is_triggered r none = false := by
  constructor
  · unfold screen_payload
    cases hpid : p.payloadId with
    | none => rfl
    | some pid =>
      cases hloc : p.locationId with
      | none => rfl
      | some loc =>
        cases hpar : p.parameter with
        | none => rfl
        | some par => rw [h]
  · rfl

theorem missing_value_skipped_never_triggers_witness :
    screen_payload payloadNoValue = none ∧ is_triggered demoRule none = false :=
  missing_value_skipped_never_triggers payloadNoValue demoRule rfl

/-- C6 counterexample: with the default-named workflow bound to content type
99 (not `SiteAlert`'s type 1), `get_default_workflow` does not fail with any
`WorkflowTypeConflict`: it is a total operation that returns the existing
workflow with its mismatched binding intact, and the migration seeding step
resolves the same mismatch by silently overwriting the binding — so the
claimed conflict failure occurs nowhere. -/
theorem default_workflow_mismatch_no_conflict :
    get_default_workflow mismatchDb = (mismatchWorkflow, mismatchDb) ∧
    mismatchWorkflow.content_type = some 99 ∧
    (99 : Nat) ≠ ctSiteAlert ∧
    (seed_workflow_binding mismatchDb).1.content_type = some ctSiteAlert := by
  refine ⟨by decide, rfl, by decide, by decide⟩

/-- C6 amended: looking up the default workflow is idempotent — a workflow
with the default name and a set binding is returned as-is, never recreated
and never rebound, with the store untouched; a binding mismatch is not an
error; the migration seeding step instead resolves any mismatch by
overwriting the binding with `SiteAlert`'s content type. -/
theorem default_workflow_idempotent_binding_kept (db : DB) (w : Workflow)
    (hw : db.workflows.find? (fun x => x.name == DEFAULT_WORKFLOW_NAME) = some w)
    (hct : w.content_type ≠ none) :
    get_default_workflow db = (w, db) ∧
    (seed_workflow_binding db).1.content_type = some ctSiteAlert := by
  refine ⟨gdw_found db w hw hct, ?_⟩
  unfold seed_workflow_binding
  rw [hw]
  dsimp only
  split
  · rename_i hc
    exact beq_iff_eq.mp hc
  · rfl

theorem default_workflow_idempotent_binding_kept_witness :
    get_default_workflow mismatchDb = (mismatchWorkflow, mismatchDb) ∧
    (seed_workflow_binding mismatchDb).1.content_type = some ctSiteAlert :=
  default_workflow_idempotent_binding_kept mismatchDb mismatchWorkflow
    (by decide) (by decide)

end AirQuality


namespace WorkflowEngine

theorem transitionsKeyUnique_iff (l : List Transition) :
    transitionsKeyUnique l = true ↔
      l.Pairwise (fun a b =>
        ¬(b.workflow = a.workflow ∧ b.source_state = a.source_state ∧
          b.name = a.name)) := by
  induction l with
  | nil => simp [transitionsKeyUnique]
  | cons a rest ih =>
    rw [List.pairwise_cons]
    simp only [transitionsKeyUnique, Bool.and_eq_true, List.all_eq_true, ih]
    constructor
    · rintro ⟨h1, h2⟩
      refine ⟨fun b hb => ?_, h2⟩
      have hball := h1 b hb
      simp only [Bool.not_eq_true', Bool.and_eq_false_iff, beq_eq_false_iff_ne,
        ne_eq] at hball
      intro hc
      rcases hball with h | h
      · rcases h with h' | h'
        · exact h' hc.1
        · exact h' hc.2.1
      · exact h hc.2.2
    · rintro ⟨h1, h2⟩
      refine ⟨fun b hb => ?_, h2⟩
      have hbr := h1 b hb
      simp only [Bool.not_eq_true', Bool.and_eq_false_iff, beq_eq_false_iff_ne,
        ne_eq]
      by_cases hwk : b.workflow = a.workflow
      · by_cases hsr : b.source_state = a.source_state
        · exact Or.inr (fun hn => hbr ⟨hwk, hsr, hn⟩)
        · exact Or.inl (Or.inr hsr)
      · exact Or.inl (Or.inl hwk)

theorem transitionsKeyUnique_mem_eq (l : List Transition) (t u : Transition)
    (hu : transitionsKeyUnique l = true) (ht : t ∈ l) (htu : u ∈ l)
    (hk : u.workflow = t.workflow ∧ u.source_state = t.source_state ∧
      u.name = t.name) : u = t := by
  by_contra hne
  have hp := (transitionsKeyUnique_iff l).mp hu
  have hsymm : Symmetric (fun a b : Transition =>
      ¬(b.workflow = a.workflow ∧ b.source_state = a.source_state ∧
        b.name = a.name)) := by
    intro x y h hc
    exact h ⟨hc.1.symm, hc.2.1.symm, hc.2.2.symm⟩
  exact List.Pairwise.forall hsymm hp ht htu (fun he => hne he.symm) hk

/-- C8: performing a transition `t` with source `S` and destination `D` on an
entity currently in `S` (by an actor holding the derived grant) moves the
entity to `D`; and a transition name with no declared edge out of the
entity's *current* state is rejected with `TransitionNotAllowed` — even when
an edge of that name leaves some other state — never a silent no-op. -/
theorem performTransition_follows_declared_edges :
    (∀ (ts : List Transition) (et : String) (hg : String → Bool) (e : WfEntity)
        (t : Transition) (tname : String),
      transitionsKeyUnique ts = true → t ∈ ts →
      e.workflow = some t.workflow → e.workflow_state = some t.source_state →
      t.name = tname → hg (grantToken et tname) = true →
      performTransition ts et hg e tname =
        .ok { e with workflow_state := some t.dest_state }) ∧
    (∀ (ts : List Transition) (et : String) (hg : String → Bool) (e : WfEntity)
        (w s : Nat) (tname : String),
      e.workflow = some w → e.workflow_state = some s →
      (∀ t ∈ ts, ¬(t.workflow = w ∧ t.source_state = s ∧ t.name = tname)) →
      performTransition ts et hg e tname = .error .transitionNotAllowed) := by
  constructor
  · intro ts et hg e t tname hu hmem hw hs hn hgr
    unfold performTransition
    rw [hw, hs]
    dsimp only
    have hpt : (fun t' : Transition =>
        t'.workflow == t.workflow && t'.source_state == t.source_state &&
          t'.name == tname) t = true := by
      simp [hn]
    have hsome : ∃ u, ts.find? (fun t' =>
        t'.workflow == t.workflow && t'.source_state == t.source_state &&
          t'.name == tname) = some u := by
      have : (ts.find? (fun t' =>
          t'.workflow == t.workflow && t'.source_state == t.source_state &&
            t'.name == tname)).isSome := by
        rw [List.find?_isSome]
        exact ⟨t, hmem, hpt⟩
      exact Option.isSome_iff_exists.mp this
    obtain ⟨u, hfind⟩ := hsome
    have humem := List.mem_of_find?_eq_some hfind
    have hup := List.find?_some hfind
    simp only [Bool.and_eq_true, beq_iff_eq] at hup
    have : u = t := transitionsKeyUnique_mem_eq ts t u hu hmem humem
      ⟨hup.1.1, hup.1.2, hup.2.trans hn.symm⟩
    subst this
    rw [hfind]
    dsimp only
    rw [hup.2]
    simp [hgr]
  · intro ts et hg e w s tname hw hs hnone
    unfold performTransition
    rw [hw, hs]
    dsimp only
    have hfind : ts.find? (fun t' =>
        t'.workflow == w && t'.source_state == s && t'.name == tname) = none := by
      rw [List.find?_eq_none]
      intro t ht hc
      simp only [Bool.and_eq_true, beq_iff_eq] at hc
      exact hnone t ht ⟨hc.1.1, hc.1.2, hc.2⟩
    rw [hfind]

theorem performTransition_follows_declared_edges_witness :
    performTransition [demoAcknowledge, demoMute] "sitealert" demoGrantAck
        demoEntityActive "acknowledge" = .ok demoEntityAcked ∧
    performTransition [demoAcknowledge, demoMute] "sitealert" demoGrantAck
        demoEntityAcked "acknowledge" = .error .transitionNotAllowed := by
  constructor
  · exact performTransition_follows_declared_edges.1
      [demoAcknowledge, demoMute] "sitealert" demoGrantAck demoEntityActive
      demoAcknowledge "acknowledge" (by decide) (by decide) rfl rfl rfl (by decide)
  · exact performTransition_follows_declared_edges.2
      [demoAcknowledge, demoMute] "sitealert" demoGrantAck demoEntityAcked
      1 2 "acknowledge" rfl rfl (by decide)

/-- C9: an actor lacking the derived grant for the transition leaving the
entity's current state gets `PermissionDenied`, and the stored entity state
is unchanged by the failed call. -/
theorem performTransition_denied_state_unchanged (ts : List Transition)
    (et : String) (hg : String → Bool) (e : WfEntity) (w s : Nat)
    (t : Transition) (tname : String)
    (hw : e.workflow = some w) (hs : e.workflow_state = some s)
    (hfind : ts.find? (fun t' =>
      t'.workflow == w && t'.source_state == s && t'.name == tname) = some t)
    (hgr : hg (grantToken et t.name) = false) :
    performTransition ts et hg e tname = .error .permissionDenied ∧
    performTransitionRun ts et hg e tname = e := by
  have herr : performTransition ts et hg e tname = .error .permissionDenied := by
    unfold performTransition
    rw [hw, hs]
    dsimp only
    rw [hfind]
    dsimp only
    rw [hgr]
    rfl
  refine ⟨herr, ?_⟩
  unfold performTransitionRun
  rw [herr]

theorem performTransition_denied_state_unchanged_witness :
    performTransition [demoAcknowledge, demoMute] "sitealert" demoGrantNone
        demoEntityActive "acknowledge" = .error .permissionDenied ∧
    performTransitionRun [demoAcknowledge, demoMute] "sitealert" demoGrantNone
        demoEntityActive "acknowledge" = demoEntityActive :=
  performTransition_denied_state_unchanged [demoAcknowledge, demoMute]
    "sitealert" demoGrantNone demoEntityActive 1 1 demoAcknowledge
    "acknowledge" rfl rfl (by decide) rfl

end WorkflowEngine

namespace AirQuality

theorem filter_ne_id_map (l : List SiteAlert) (aid : Nat) (f : SiteAlert → SiteAlert)
    (hid : ∀ b, (f b).id = b.id) (hfix : ∀ b, (b.id == aid) = false → f b = b) :
    (l.map f).filter (fun b => !(b.id == aid)) =
      l.filter (fun b => !(b.id == aid)) := by
  induction l with
  | nil => rfl
  | cons c rest ih =>
    by_cases hc : (c.id == aid) = true
    · have hfc : ((f c).id == aid) = true := by rw [hid c]; exact hc
      simp [List.filter_cons, hc, hfc, ih]
    · have hc' : (c.id == aid) = false := by
        cases hcv : (c.id == aid)
        · rfl
        · exact absurd hcv hc
      have hfc : ((f c).id == aid) = false := by rw [hid c]; exact hc'
      simp [List.filter_cons, hc', hfc, ih, hfix c hc']

theorem mem_of_filter_singleton (l : List SiteAlert) (p : SiteAlert → Bool)
    (a : SiteAlert) (h : l.filter p = [a]) : a ∈ l ∧ p a = true := by
  have : a ∈ l.filter p := by
    rw [h]
    exact List.mem_singleton.mpr rfl
  exact ⟨List.mem_of_mem_filter this, List.of_mem_filter this⟩

/-- C10: on the refresh path of the upsert (an active alert was locked), the
alert's workflow state is left unchanged — `mark_active` only assigns a state
when none is set — and the refresh persists exactly the triggering
measurement, trigger timestamp, value and workflow attachment columns,
leaving the alert's rule and note untouched. -/
theorem upsert_refresh_frame_effect (r : SiteAlertRule) (m : Measurement)
    (locked : List Nat) (db : DB) (w : Workflow) (a a' : SiteAlert) (db' : DB)
    (hw : db.workflows.find? (fun x => x.name == DEFAULT_WORKFLOW_NAME) = some w)
    (hct : w.content_type ≠ none)
    (hlock : firstLockableActive db r.id locked = some a)
    (hup : upsert_alert r m locked db = some (a', db')) :
    a' = { a with measurement := m.id, triggered_at := m.measured_at,
                  value := m.value, workflow := some w.id } ∧
    a'.workflow_state = a.workflow_state ∧
    a'.rule = a.rule ∧
    a'.note = a.note ∧
    db'.alerts = db.alerts.map (fun b =>
      if b.id == a.id then
        { b with measurement := m.id, triggered_at := m.measured_at,
                 value := m.value, workflow := some w.id,
                 workflow_state := a.workflow_state }
      else b) := by
  rw [upsert_refresh_shape r m locked db w a hw hct hlock] at hup
  cases hres : refreshSave db
      { a with measurement := m.id, triggered_at := m.measured_at,
               value := m.value, workflow := some w.id } with
  | none =>
    rw [hres] at hup
    exact absurd hup (by simp)
  | some db2 =>
    rw [hres] at hup
    simp only [Option.map_some'] at hup
    have hinj := Option.some.inj hup
    have ha' : a' = { a with measurement := m.id,
                             triggered_at := m.measured_at,
                             value := m.value, workflow := some w.id } :=
      (congrArg Prod.fst hinj).symm
    have hdb' : db' = db2 := (congrArg Prod.snd hinj).symm
    obtain ⟨hdb2, _⟩ := refreshSave_some db _ db2 hres
    refine ⟨ha', ?_, ?_, ?_, ?_⟩
    · rw [ha']
    · rw [ha']
    · rw [ha']
    · rw [hdb', hdb2]

theorem upsert_refresh_frame_effect_witness :
    demoAlertRefreshed =
      { demoAlert with measurement := demoMeasurementUpdated.id,
                       triggered_at := demoMeasurementUpdated.measured_at,
                       value := demoMeasurementUpdated.value,
                       workflow := some demoWorkflow.id } ∧
    demoAlertRefreshed.workflow_state = demoAlert.workflow_state ∧
    demoAlertRefreshed.rule = demoAlert.rule ∧
    demoAlertRefreshed.note = demoAlert.note ∧
    demoDbRefreshed.alerts = demoDbAfter.alerts.map (fun b =>
      if b.id == demoAlert.id then
        { b with measurement := demoMeasurementUpdated.id,
                 triggered_at := demoMeasurementUpdated.measured_at,
                 value := demoMeasurementUpdated.value,
                 workflow := some demoWorkflow.id,
                 workflow_state := demoAlert.workflow_state }
      else b) :=
  upsert_refresh_frame_effect demoRule demoMeasurementUpdated [] demoDbAfter
    demoWorkflow demoAlert demoAlertRefreshed demoDbRefreshed
    (by decide) (by decide) (by decide) (by decide)

end AirQuality

namespace AirQuality

/-- C1: when the rule's only active alert is the one for this fact-identity
and no concurrent writer holds locks, re-evaluating the same fact with a new
value makes the upsert refresh that alert row in place — new value, same
triggering fact, new timestamp — returning it without adding a row and
without touching any other row. -/
theorem upsert_same_fact_updates_in_place (r : SiteAlertRule) (m : Measurement)
    (db : DB) (w : Workflow) (a : SiteAlert)
    (hw : db.workflows.find? (fun x => x.name == DEFAULT_WORKFLOW_NAME) = some w)
    (hct : w.content_type ≠ none)
    (hwf : DBwf db = true)
    (hact : db.alerts.filter (fun b => isActiveAlert db b && b.rule == r.id) = [a])
    (hm : a.measurement = m.id) :
    (upsert_alert r m [] db).map (fun x =>
        (x.1, x.2.alerts.length, x.2.alerts.filter (fun b => !(b.id == a.id)))) =
      some ({ a with measurement := m.id, triggered_at := m.measured_at,
                     value := m.value, workflow := some w.id },
            db.alerts.length,
            db.alerts.filter (fun b => !(b.id == a.id))) := by
  have hlock : firstLockableActive db r.id [] = some a := by
    unfold firstLockableActive
    have hfc : db.alerts.filter
        (fun b => isActiveAlert db b && b.rule == r.id &&
          !(List.contains ([] : List Nat) b.id)) = [a] := by
      rw [List.filter_congr (fun b _ => ?_)]
      · exact hact
      · simp
    rw [hfc]
    rfl
  obtain ⟨hamem, hapred⟩ := mem_of_filter_singleton _ _ _ hact
  unfold DBwf at hwf
  simp only [Bool.and_eq_true] at hwf
  have hgate : alertsPairUnique (db.alerts.map (fun b =>
      if b.id == a.id then
        { b with measurement := m.id, triggered_at := m.measured_at,
                 value := m.value, workflow := some w.id,
                 workflow_state := a.workflow_state }
      else b)) = true := by
    apply alertsPairUnique_map_preserving _ _ _ hwf.2
    intro b hb
    by_cases hbid : (b.id == a.id) = true
    · have hba : b = a :=
        alertsIdUnique_mem_eq db.alerts b a hwf.1.2 hb hamem (beq_iff_eq.mp hbid)
      subst hba
      simp only [hbid, if_pos rfl]
      exact ⟨rfl, hm.symm⟩
    · have hbid' : (b.id == a.id) = false := by
        cases hcv : (b.id == a.id)
        · rfl
        · exact absurd hcv hbid
      simp only [hbid']
      exact ⟨rfl, rfl⟩
  rw [upsert_refresh_shape r m [] db w a hw hct hlock]
  cases hres : refreshSave db
      { a with measurement := m.id, triggered_at := m.measured_at,
               value := m.value, workflow := some w.id } with
  | none =>
    exfalso
    unfold refreshSave at hres
    dsimp only at hres
    split at hres
    · exact absurd hres (by simp)
    · rename_i hng
      exact hng hgate
  | some db2 =>
    obtain ⟨hdb2, _⟩ := refreshSave_some db _ db2 hres
    have hid : ∀ b : SiteAlert, ((fun b : SiteAlert =>
        if b.id == a.id then
          { b with measurement := m.id, triggered_at := m.measured_at,
                   value := m.value, workflow := some w.id,
                   workflow_state := a.workflow_state }
        else b) b).id = b.id := by
      intro b
      dsimp only
      by_cases hbid : (b.id == a.id) = true
      · rw [if_pos hbid]
      · rw [if_neg hbid]
    have hfix : ∀ b : SiteAlert, (b.id == a.id) = false → ((fun b : SiteAlert =>
        if b.id == a.id then
          { b with measurement := m.id, triggered_at := m.measured_at,
                   value := m.value, workflow := some w.id,
                   workflow_state := a.workflow_state }
        else b) b) = b := by
      intro b hbid
      dsimp only
      rw [if_neg (by simp [hbid])]
    simp only [Option.map_some']
    rw [hdb2]
    dsimp only
    rw [List.length_map, filter_ne_id_map db.alerts a.id _ hid hfix]

theorem upsert_same_fact_updates_in_place_witness :
    (upsert_alert demoRule demoMeasurementUpdated [] demoDbAfter).map (fun x =>
        (x.1, x.2.alerts.length,
         x.2.alerts.filter (fun b => !(b.id == demoAlert.id)))) =
      some ({ demoAlert with measurement := demoMeasurementUpdated.id,
                             triggered_at := demoMeasurementUpdated.measured_at,
                             value := demoMeasurementUpdated.value,
                             workflow := some demoWorkflow.id },
            demoDbAfter.alerts.length,
            demoDbAfter.alerts.filter (fun b => !(b.id == demoAlert.id))) :=
  upsert_same_fact_updates_in_place demoRule demoMeasurementUpdated demoDbAfter
    demoWorkflow demoAlert (by decide) (by decide) (by decide) (by decide) (by decide)

end AirQuality

namespace AirQuality

theorem fullSave_of_map_eq (db : DB) (a : SiteAlert) (l' : List SiteAlert)
    (hmap : db.alerts.map (fun b => if b.id == a.id then a else b) = l')
    (hgate : alertsPairUnique l' = true) :
    fullSave db a = some { db with alerts := l' } := by
  unfold fullSave
  dsimp only
  rw [hmap, if_pos hgate]

theorem mark_active_none_state (a : SiteAlert) (db : DB) (w : Workflow)
    (st : WState)
    (hw : db.workflows.find? (fun x => x.name == DEFAULT_WORKFLOW_NAME) = some w)
    (hct : w.content_type ≠ none)
    (hst : db.states.find? (fun s => s.workflow == w.id && s.name == STATE_ACTIVE)
      = some st)
    (hsn : a.workflow_state = none) :
    mark_active a db =
      ({ a with workflow := some w.id, workflow_state := some st.id }, db) := by
  unfold mark_active get_active_state
  simp only [hsn, gdw_found db w hw hct]
  rw [hst]

/-- C5: when no active alert for the rule could be locked and no row for this
(rule, fact) pair exists, the upsert creates a fresh alert row for the pair,
attached to the default workflow in its start state (the seeded workflow's
`Active` state is its start state). -/
theorem upsert_create_attaches_start_state (r : SiteAlertRule) (m : Measurement)
    (locked : List Nat) (db : DB) (w : Workflow) (st : WState)
    (hw : db.workflows.find? (fun x => x.name == DEFAULT_WORKFLOW_NAME) = some w)
    (hct : w.content_type ≠ none)
    (hst : db.states.find? (fun s => s.workflow == w.id && s.name == STATE_ACTIVE)
      = some st)
    (hstart : st.is_start = true)
    (hnoact : db.alerts.filter (fun b =>
      isActiveAlert db b && b.rule == r.id && !(locked.contains b.id)) = [])
    (hnopair : db.alerts.all
      (fun b => !(b.rule == r.id && b.measurement == m.id)) = true)
    (hwf : DBwf db = true) :
    (upsert_alert r m locked db).map (fun x =>
        (x.1.id, x.1.rule, x.1.measurement, x.1.workflow, x.1.workflow_state,
         x.2.alerts.length)) =
      some (db.nextAlertId, r.id, m.id, some w.id, some st.id,
            db.alerts.length + 1) ∧
    st.is_start = true := by
  refine ⟨?_, hstart⟩
  unfold DBwf at hwf
  simp only [Bool.and_eq_true] at hwf
  have hbound := List.all_eq_true.mp hwf.1.1
  have hlock : firstLockableActive db r.id locked = none := by
    unfold firstLockableActive
    rw [hnoact]
    rfl
  have hgot : db.alerts.find?
      (fun a => a.rule == r.id && a.measurement == m.id) = none := by
    rw [List.find?_eq_none]
    intro x hx
    have hxall := List.all_eq_true.mp hnopair x hx
    simp only [Bool.not_eq_true'] at hxall
    simp [hxall]
  unfold upsert_alert
  rw [gdw_found db w hw hct]
  dsimp only
  rw [hlock]
  dsimp only
  unfold get_or_create_alert
  dsimp only
  rw [hgot]
  dsimp only
  unfold insertAlert
  dsimp only
  rw [if_pos hnopair]
  dsimp only
  have hdb2w : ({ db with
      alerts := db.alerts ++
        [{ id := db.nextAlertId, rule := r.id, measurement := m.id,
           triggered_at := m.measured_at, value := m.value, note := "",
           workflow := some w.id, workflow_state := none }],
      nextAlertId := db.nextAlertId + 1 } : DB).workflows.find?
        (fun x => x.name == DEFAULT_WORKFLOW_NAME) = some w := hw
  have hst2 : ({ db with
      alerts := db.alerts ++
        [{ id := db.nextAlertId, rule := r.id, measurement := m.id,
           triggered_at := m.measured_at, value := m.value, note := "",
           workflow := some w.id, workflow_state := none }],
      nextAlertId := db.nextAlertId + 1 } : DB).states.find?
        (fun s => s.workflow == w.id && s.name == STATE_ACTIVE) = some st := hst
  rw [mark_active_none_state _ _ w st hdb2w hct hst2 rfl]
  dsimp only
  have hfull : fullSave
      { workflows := db.workflows, states := db.states, rules := db.rules,
        alerts := db.alerts ++
          [{ id := db.nextAlertId, rule := r.id, measurement := m.id,
             triggered_at := m.measured_at, value := m.value, note := "",
             workflow := some w.id, workflow_state := none }],
        nextWorkflowId := db.nextWorkflowId, nextAlertId := db.nextAlertId + 1 }
      { id := db.nextAlertId, rule := r.id, measurement := m.id,
        triggered_at := m.measured_at, value := m.value, note := "",
        workflow := some w.id, workflow_state := some st.id } =
      some ({ workflows := db.workflows, states := db.states, rules := db.rules,
              alerts := db.alerts ++
                [{ id := db.nextAlertId, rule := r.id, measurement := m.id,
                   triggered_at := m.measured_at, value := m.value, note := "",
                   workflow := some w.id, workflow_state := some st.id }],
              nextWorkflowId := db.nextWorkflowId,
              nextAlertId := db.nextAlertId + 1 } : DB) := by
    apply fullSave_of_map_eq
    · dsimp only
      rw [List.map_append]
      congr 1
      · have hbe : ∀ b ∈ db.alerts, (fun b : SiteAlert =>
            if b.id == db.nextAlertId then
              { id := db.nextAlertId, rule := r.id, measurement := m.id,
                triggered_at := m.measured_at, value := m.value, note := "",
                workflow := some w.id, workflow_state := some st.id }
            else b) b = id b := by
          intro b hb
          have hlt := hbound b hb
          simp only [decide_eq_true_eq] at hlt
          dsimp only
          rw [if_neg (by simp; omega)]
          rfl
        rw [List.map_congr_left hbe, List.map_id]
      · simp
    · apply alertsPairUnique_append_one _ _ _ hwf.2
      exact hnopair
  rw [hfull]
  dsimp only
  simp [List.length_append]

theorem upsert_create_attaches_start_state_witness :
    (upsert_alert demoRule demoMeasurement [] demoDb).map (fun x =>
        (x.1.id, x.1.rule, x.1.measurement, x.1.workflow, x.1.workflow_state,
         x.2.alerts.length)) =
      some (demoDb.nextAlertId, demoRule.id, demoMeasurement.id,
            some demoWorkflow.id, some demoStateActive.id,
            demoDb.alerts.length + 1) ∧
    demoStateActive.is_start = true :=
  upsert_create_attaches_start_state demoRule demoMeasurement [] demoDb
    demoWorkflow demoStateActive (by decide) (by decide) (by decide) (by decide)
    (by decide) (by decide) (by decide)

end AirQuality

namespace AirQuality

theorem DBwf_of_frame (db db' : DB) (hA : db'.alerts = db.alerts)
    (hN : db'.nextAlertId = db.nextAlertId) (h : DBwf db = true) :
    DBwf db' = true := by
  rw [DBwf_congr db' db hA hN]
  exact h

theorem get_or_create_alert_wf (r : SiteAlertRule) (m : Measurement)
    (wf : Workflow) (db : DB) (adb0 : SiteAlert × DB)
    (h : get_or_create_alert r m wf db = some adb0)
    (hwf : DBwf db = true) : DBwf adb0.2 = true := by
  unfold get_or_create_alert at h
  split at h
  · have hsnd : db = adb0.2 := congrArg Prod.snd (Option.some.inj h)
    rw [← hsnd]
    exact hwf
  · dsimp only at h
    split at h
    · rename_i db2 hins
      have hwf2 := insertAlert_wf _ _ _ hins hwf rfl
      have hsnd : db2 = adb0.2 := congrArg Prod.snd (Option.some.inj h)
      rw [← hsnd]
      exact hwf2
    · exact absurd h (by simp)

theorem upsert_wf (r : SiteAlertRule) (m : Measurement) (locked : List Nat)
    (db : DB) (a' : SiteAlert) (db' : DB)
    (hup : upsert_alert r m locked db = some (a', db'))
    (hwf : DBwf db = true) : DBwf db' = true := by
  have hgf := gdw_frame db
  have hwf1 : DBwf (get_default_workflow db).2 = true :=
    DBwf_of_frame db _ hgf.2.1 hgf.2.2 hwf
  unfold upsert_alert at hup
  dsimp only at hup
  split at hup
  · -- refresh branch: an active alert was locked
    rename_i a0 hlk
    have hmf := mark_active_frame
      { a0 with measurement := m.id, triggered_at := m.measured_at, value := m.value }
      (get_default_workflow db).2
    have hwf2 : DBwf (mark_active
        { a0 with measurement := m.id, triggered_at := m.measured_at,
                  value := m.value }
        (get_default_workflow db).2).2 = true :=
      DBwf_of_frame _ _ hmf.2.1 hmf.2.2 hwf1
    split at hup
    · rename_i db2 hrs
      have := refreshSave_wf _ _ _ hrs hwf2
      have hsnd : db2 = db' := congrArg Prod.snd (Option.some.inj hup)
      rw [← hsnd]
      exact this
    · exact absurd hup (by simp)
  · -- create branch: get_or_create followed by attach and save
    rename_i hlk
    split at hup
    · exact absurd hup (by simp)
    · rename_i adb0 hgoc
      have hwf2 : DBwf adb0.2 = true :=
        get_or_create_alert_wf r m _ _ adb0 hgoc hwf1
      split at hup
      · rename_i db3 hfs
        have hwf3 := fullSave_wf _ _ _ hfs
          (DBwf_of_frame adb0.2 _ (mark_active_frame _ adb0.2).2.1
            (mark_active_frame _ adb0.2).2.2 hwf2)
        have hsnd : db3 = db' := congrArg Prod.snd (Option.some.inj hup)
        rw [← hsnd]
        exact hwf3
      · exact absurd hup (by simp)

end AirQuality

namespace AirQuality

theorem evalRules_wf (m : Measurement) (locked : List Nat)
    (rules : List SiteAlertRule) (db : DB) (res : List SiteAlert) (db' : DB)
    (h : evalRules m locked rules db = some (res, db'))
    (hwf : DBwf db = true) : DBwf db' = true := by
  induction rules generalizing db res with
  | nil =>
    unfold evalRules at h
    have hsnd : db = db' := congrArg Prod.snd (Option.some.inj h)
    rw [← hsnd]
    exact hwf
  | cons r rs ih =>
    unfold evalRules at h
    split at h
    · split at h
      · exact absurd h (by simp)
      · rename_i adb hupeq
        split at h
        · exact absurd h (by simp)
        · rename_i rest hresteq
          have hwf2 := upsert_wf r m locked db adb.1 adb.2 (by rw [← hupeq]) hwf
          have hsnd : rest.2 = db' := congrArg Prod.snd (Option.some.inj h)
          exact ih adb.2 rest.1 (by rw [hresteq, ← hsnd]) hwf2
    · exact ih db res h hwf

/-- C4: no two alert rows ever share a (rule, triggering-fact) pair — the
storage layer's unique constraint rejects any write that would break it (the
checked saves return `none`), and every successful run of the evaluation
service preserves the well-formed table invariant, the `get_or_create`
branch included. -/
theorem evaluate_preserves_pair_uniqueness (m : Measurement)
    (locked : List Nat) (db : DB) (res : List SiteAlert) (db' : DB)
    (hwf : DBwf db = true)
    (h : evaluate_measurement m locked db = some (res, db')) :
    DBwf db' = true ∧ alertsPairUnique db'.alerts = true := by
  have hwf' : DBwf db' = true := by
    unfold evaluate_measurement at h
    exact evalRules_wf m locked _ db res db' h hwf
  refine ⟨hwf', ?_⟩
  unfold DBwf at hwf'
  simp only [Bool.and_eq_true] at hwf'
  exact hwf'.2

theorem evaluate_preserves_pair_uniqueness_witness :
    DBwf demoDbAfter = true ∧ alertsPairUnique demoDbAfter.alerts = true :=
  evaluate_preserves_pair_uniqueness demoMeasurement [] demoDb [demoAlert]
    demoDbAfter (by decide) (by decide)

end AirQuality

namespace AirQuality

theorem get_or_create_alert_rule (r : SiteAlertRule) (m : Measurement)
    (wf : Workflow) (db : DB) (adb0 : SiteAlert × DB)
    (h : get_or_create_alert r m wf db = some adb0) : adb0.1.rule = r.id := by
  unfold get_or_create_alert at h
  split at h
  · rename_i a0 hf
    rw [← congrArg Prod.fst (Option.some.inj h)]
    have hp := List.find?_some hf
    simp only [Bool.and_eq_true, beq_iff_eq] at hp
    exact hp.1
  · dsimp only at h
    split at h
    · rename_i db2 hins
      rw [← congrArg Prod.fst (Option.some.inj h)]
    · exact absurd h (by simp)

theorem upsert_rule_id (r : SiteAlertRule) (m : Measurement) (locked : List Nat)
    (db : DB) (a' : SiteAlert) (db' : DB)
    (hup : upsert_alert r m locked db = some (a', db')) : a'.rule = r.id := by
  unfold upsert_alert at hup
  dsimp only at hup
  split at hup
  · rename_i a0 hlk
    split at hup
    · rename_i db2 hrs
      have hfst : _ = a' := congrArg Prod.fst (Option.some.inj hup)
      rw [← hfst]
      rw [(mark_active_fields _ _).2.1]
      exact (firstLockableActive_mem _ _ _ _ hlk).2.1
    · exact absurd hup (by simp)
  · rename_i hlk
    split at hup
    · exact absurd hup (by simp)
    · rename_i adb0 hgoc
      have hr0 : adb0.1.rule = r.id := get_or_create_alert_rule r m _ _ adb0 hgoc
      split at hup
      · rename_i db3 hfs
        have hfst : _ = a' := congrArg Prod.fst (Option.some.inj hup)
        rw [← hfst]
        rw [(mark_active_fields _ _).2.1]
        cases hwk : adb0.1.workflow with
        | none => simp only [hwk]; exact hr0
        | some v => simp only [hwk]; exact hr0
      · exact absurd hup (by simp)

theorem evalRules_map_rule (m : Measurement) (locked : List Nat)
    (rules : List SiteAlertRule) (db : DB) (res : List SiteAlert) (db' : DB)
    (h : evalRules m locked rules db = some (res, db')) :
    res.map (fun a => a.rule) =
      (rules.filter (fun r => is_triggered r (some m.value))).map
        (fun r => r.id) := by
  induction rules generalizing db res with
  | nil =>
    unfold evalRules at h
    have hfst : _ = res := congrArg Prod.fst (Option.some.inj h)
    rw [← hfst]
    rfl
  | cons r rs ih =>
    unfold evalRules at h
    split at h
    · rename_i htr
      split at h
      · exact absurd h (by simp)
      · rename_i adb hupeq
        split at h
        · exact absurd h (by simp)
        · rename_i rest hresteq
          have hfst : _ = res := congrArg Prod.fst (Option.some.inj h)
          rw [← hfst]
          have hsnd : rest.2 = db' := congrArg Prod.snd (Option.some.inj h)
          rw [List.filter_cons, if_pos htr]
          simp only [List.map_cons]
          congr 1
          · exact upsert_rule_id r m locked db adb.1 adb.2 (by rw [hupeq])
          · exact ih adb.2 rest.1 (by rw [hresteq, ← hsnd])
    · rename_i htr
      rw [List.filter_cons, if_neg htr]
      exact ih db res h

/-- C3: a successful `evaluate` call returns exactly one alert (the one it
upserted) per rule that is active, matches the fact's (site, pollutant) and
is breached by the fact's value, in rule order; rules that are inactive,
match a different pair, or are not breached contribute no alert. -/
theorem evaluate_one_alert_per_breaching_rule (m : Measurement)
    (locked : List Nat) (db : DB) (res : List SiteAlert) (db' : DB)
    (h : evaluate_measurement m locked db = some (res, db')) :
    res.map (fun a => a.rule) =
      (db.rules.filter (fun r => r.is_active && matches_measurement r m &&
        is_triggered r (some m.value))).map (fun r => r.id) := by
  unfold evaluate_measurement applicable_rules at h
  rw [evalRules_map_rule m locked _ db res db' h]
  congr 1
  rw [List.filter_filter, List.filter_filter]
  apply List.filter_congr
  intro r _
  rw [Bool.eq_iff_iff]
  simp only [Bool.and_eq_true, beq_iff_eq, matches_measurement]
  constructor
  · rintro ⟨⟨htr, hs, hp⟩, hact⟩
    exact ⟨⟨hact, hs.symm, hp.symm⟩, htr⟩
  · rintro ⟨⟨hact, hs, hp⟩, htr⟩
    exact ⟨⟨htr, hs.symm, hp.symm⟩, hact⟩

theorem evaluate_one_alert_per_breaching_rule_witness :
    [demoAlert].map (fun a => a.rule) =
      (demoDb.rules.filter (fun r =>
        r.is_active && matches_measurement r demoMeasurement &&
        is_triggered r (some demoMeasurement.value))).map (fun r => r.id) :=
  evaluate_one_alert_per_breaching_rule demoMeasurement [] demoDb [demoAlert]
    demoDbAfter (by decide)

end AirQuality
